import Mathlib

/-!
Shallow embedding of src/models/segmentation_models.py (domain_adaptation
repository) and verification of the specification claims about it.

The file has two layers:

* a construction layer (`createDeepLabv3`, `unetBranch`, `initNet`) embedding
  the backbone selection performed by `SegModel.__init__`;
* a runtime layer (`SegModel`, `SegModel.forward`, the three step functions)
  embedding the per-batch behaviour.  Tensors are flattened lists of reals,
  the backbone network and the pluggable overlap-metric function are abstract
  functions stored in the module (their numeric bodies live in external code),
  Python exceptions are `Except.error` values, and calls to `self.log` are
  collected in an explicit list of `LogEntry` values returned by each step.
-/

namespace DomainAdaptation

/-- Configuration of a 2-d convolution layer, the observable data of
`nn.Conv2d(in, out, kernel_size, stride, padding, bias)`. -/
structure Conv2dCfg where
  in_channels : Nat
  out_channels : Nat
  kernel_size : Nat
  stride : Nat
  padding : Nat
  bias : Bool
deriving DecidableEq, Repr

/-- Observable configuration of the torchvision DeepLabV3 network: whether the
pretrained weights were requested, the first backbone convolution, and the
classifier head dimensions. -/
structure DeepLabV3Model where
  pretrained : Bool
  conv1 : Conv2dCfg
  classifier_in_channels : Nat
  classifier_out_channels : Nat
deriving DecidableEq, Repr

/-- Modelled from the spec: `torchvision.models.segmentation.deeplabv3_resnet101`
is external library code (not in this repository).  It returns a pretrained
atrous-convolution network with a 101-layer residual backbone whose first
convolution is `Conv2d(3, 64, kernel_size=7, stride=2, padding=3, bias=False)`
and whose stock classifier head maps 2048 input channels to the pretrained
class count (21 for the COCO-trained weights). -/
def deeplabv3_resnet101 (pretrained progress : Bool) : DeepLabV3Model :=
  { pretrained := pretrained
    conv1 := ⟨3, 64, 7, 2, 3, false⟩
    classifier_in_channels := 2048
    classifier_out_channels := 21 }

/-- Embedding of `createDeepLabv3` (segmentation_models.py lines 13-27): load
the pretrained network, replace `model.backbone.conv1` by
`Conv2d(3, 64, 7, 2, 3, bias=False)`, and replace `model.classifier` by
`DeepLabHead(2048, num_classes=1)`.  Note that the output channel count of the head is
the literal 1, independent of any caller configuration: the factory takes no
arguments. -/
def createDeepLabv3 : DeepLabV3Model :=
  let model := deeplabv3_resnet101 true true
  let model := { model with conv1 := ⟨3, 64, 7, 2, 3, false⟩ }
  let model := { model with classifier_in_channels := 2048
                            classifier_out_channels := 1 }
  model

/-- The backbone value assigned to `self.net`, as a tagged variant carrying
exactly the construction arguments each branch of `SegModel.__init__` passes
to the corresponding network class. -/
inductive Net where
  | unet (num_classes num_layers features_start : Nat) (bilinear : Bool)
  | unet_resnet18 (num_classes : Nat)
  | deeplabv3 (model : DeepLabV3Model)
deriving DecidableEq, Repr

/-- Embedding of the first, standalone `if` statement of `SegModel.__init__`
(line 73): when `model_name == "unet"` it assigns
`UNet(num_classes=..., num_layers=..., features_start=..., bilinear=...)` to
`self.net`; otherwise it assigns nothing. -/
def unetBranch (model_name : String) (num_classes num_layers features_start : Nat)
    (bilinear : Bool) : Option Net :=
  if model_name = "unet" then
    some (Net.unet num_classes num_layers features_start bilinear)
  else
    none

/-- Embedding of the `self.net` selection in `SegModel.__init__` (lines
73-85).  The source has a standalone `if model_name == "unet"` statement
followed by a separate `if / elif / else` chain; the final `else` executes
`assert False, "No model selected"`.  Consequently the `"unet"` case first
assigns the net (the discarded `unetBranch` value below) and then falls into
the `else` of the second chain, raising `AssertionError`. -/
def initNet (model_name : String) (num_classes num_layers features_start : Nat)
    (bilinear : Bool) : Except String Net :=
  let _first := unetBranch model_name num_classes num_layers features_start bilinear
  if model_name = "unet_resnet_backbone" then
    Except.ok (Net.unet_resnet18 num_classes)
  else if model_name = "deeplabv3" then
    Except.ok (Net.deeplabv3 createDeepLabv3)
  else
    Except.error "No model selected"

/-! ### Runtime layer -/

/-- Tensor element dtypes that matter here: `.float()` casts to float32. -/
inductive DType where
  | float32
  | float64
  | int64
  | uint8
deriving DecidableEq, Repr

/-- An image batch tensor: a dtype tag plus flattened contents. -/
structure Img where
  dtype : DType
  data : List ℝ

/-- Embedding of `img.float()`: cast to float32, contents unchanged. -/
def Img.float (i : Img) : Img :=
  { i with dtype := DType.float32 }

/-- What a backbone call `self.net(x)` can return: a plain tensor, or (for
the torchvision DeepLabV3 network) a string-keyed mapping of tensors. -/
inductive NetOutput where
  | tensor (t : List ℝ)
  | dict (entries : List (String × List ℝ))

/-- Using a `NetOutput` where a tensor is required (e.g. inside the loss or
the metric); subscripting a mapping there is a Python `TypeError`. -/
def NetOutput.asTensor : NetOutput → Except String (List ℝ)
  | NetOutput.tensor t => Except.ok t
  | NetOutput.dict _ => Except.error "TypeError: expected a tensor"

/-- The runtime state of a constructed `SegModel`: the saved hyperparameters,
the backbone as an abstract callable (its numeric body is external code), and
the caller-supplied overlap-metric function `seg_metric` stored as
`self.dice_coeff`, mapping `(predictions, mask)` to a per-example,
per-class score matrix. -/
structure SegModel where
  model_name : String
  num_classes : Nat
  lr : ℝ
  num_layers : Nat
  features_start : Nat
  bilinear : Bool
  net : Img → NetOutput
  dice_coeff : List ℝ → List ℝ → List (List ℝ)

/-- Embedding of `SegModel.forward` (lines 91-97): for `"deeplabv3"` the
backbone output is subscripted with the fixed key `"out"`; for every other
model name the backbone output is returned unchanged. -/
def SegModel.forward (m : SegModel) (x : Img) : Except String NetOutput :=
  if m.model_name = "deeplabv3" then
    match m.net x with
    | NetOutput.dict entries =>
      match entries.lookup "out" with
      | some t => Except.ok (NetOutput.tensor t)
      | none => Except.error "KeyError: out"
    | NetOutput.tensor _ => Except.error "TypeError: tensor indices must be integers"
  else
    Except.ok (m.net x)

/-- The forward result as a tensor: `self(img)` followed by its use as a
tensor by the loss / metric code of the step functions. -/
def SegModel.fwdT (m : SegModel) (x : Img) : Except String (List ℝ) :=
  (m.forward x).bind NetOutput.asTensor

/-- Arithmetic mean of a list of reals (`torch.mean` along dim 0 of a
1-d tensor of that length). -/
noncomputable def mean (l : List ℝ) : ℝ :=
  l.sum / l.length

/-- The logistic sigmoid. -/
noncomputable def sigmoid (x : ℝ) : ℝ :=
  1 / (1 + Real.exp (-x))

/-- Elementwise binary cross-entropy on a logit `x` against a target `y`. -/
noncomputable def bceWithLogitsPointwise (x y : ℝ) : ℝ :=
  -(y * Real.log (sigmoid x) + (1 - y) * Real.log (1 - sigmoid x))

/-- Embedding of `F.binary_cross_entropy_with_logits(input, target)` with the
default mean reduction; PyTorch raises when the target shape differs from the
input shape. -/
noncomputable def binary_cross_entropy_with_logits (input target : List ℝ) :
    Except String ℝ :=
  if input.length = target.length then
    Except.ok (mean (List.zipWith bceWithLogitsPointwise input target))
  else
    Except.error "ValueError: target size must be the same as input size"

/-- Embedding of `row[-2]`: the second-to-last entry, a Python `IndexError`
when the row has fewer than two entries. -/
def indexNeg2 (row : List ℝ) : Except String ℝ :=
  if h : 2 ≤ row.length then
    Except.ok (row.get ⟨row.length - 2, by omega⟩)
  else
    Except.error "IndexError"

/-- Embedding of the column slice `t[:, -2]` on a per-example, per-class
score matrix: the second-to-last entry of every row. -/
def colNeg2 (t : List (List ℝ)) : Except String (List ℝ) :=
  t.mapM indexNeg2

/-- One `self.log(name, value, ...)` call with its keyword flags
(`prog_bar`, `on_epoch`, `sync_dist`; each defaults to false). -/
structure LogEntry where
  name : String
  value : ℝ
  prog_bar : Bool
  on_epoch : Bool
  sync_dist : Bool

/-- The dictionary returned by `training_step`:
`{"loss": loss, "log": log_dict, "progress_bar": log_dict}`. -/
structure TrainOut where
  loss : ℝ
  log : List (String × ℝ)
  progress_bar : List (String × ℝ)

/-- The dictionary returned by `validation_step`: `{"val_loss": loss_val}`. -/
structure ValOut where
  val_loss : ℝ

/-- The dictionary returned by `test_step`:
`{"curr_mean_dice": curr_mean_dice}`. -/
structure TestOut where
  curr_mean_dice : ℝ

/-- Embedding of `SegModel.training_step` (lines 105-117).  The step returns
its dictionary, the list of `self.log` calls it made, and the module state
after the call (no attribute of `self` is assigned in the source body, so the
threaded state is returned unchanged). -/
noncomputable def SegModel.training_step (m : SegModel) (batch : Img × List ℝ) :
    Except String (TrainOut × List LogEntry × SegModel) := do
  let (img, mask) := batch
  let img := img.float
  let out ← m.fwdT img
  let loss ← binary_cross_entropy_with_logits out mask
  let log_dict := [("Binary Cross Entropy Loss", loss)]
  let logs := [LogEntry.mk "Binary Cross Entropy Loss - Training" loss false false false]
  Except.ok ({ loss := loss, log := log_dict, progress_bar := log_dict }, logs, m)

/-- Embedding of `SegModel.validation_step` (lines 119-145).  The batch is the
string-keyed mapping produced by the combined loaders; missing keys are
Python `KeyError`s. -/
noncomputable def SegModel.validation_step (m : SegModel)
    (batch : List (String × (Img × List ℝ))) :
    Except String (ValOut × List LogEntry × SegModel) := do
  let batch_source ← match batch.lookup "loader_val_source" with
    | some b => Except.ok b
    | none => Except.error "KeyError: loader_val_source"
  let batch_target ← match batch.lookup "loader_target_test" with
    | some b => Except.ok b
    | none => Except.error "KeyError: loader_target_test"
  let (img, mask) := batch_source
  let seg_out ← m.fwdT img
  let loss_val ← binary_cross_entropy_with_logits seg_out mask
  let dice_coeff_values := m.dice_coeff seg_out mask
  let col ← colNeg2 dice_coeff_values
  let curr_mean_dice := mean col
  let logs_source :=
    [LogEntry.mk "Validation Loss - Source Data" loss_val true true false,
     LogEntry.mk "Dice Score - Source Data" curr_mean_dice true true false]
  let (img, mask) := batch_target
  let seg_out ← m.fwdT img
  let dice_coeff_values := m.dice_coeff seg_out mask
  let col ← colNeg2 dice_coeff_values
  let curr_mean_dice := mean col
  let logs := logs_source ++
    [LogEntry.mk "Dice Score on Target Test Data" curr_mean_dice true true true]
  Except.ok ({ val_loss := loss_val }, logs, m)

/-- Embedding of `SegModel.test_step` (lines 147-158). -/
noncomputable def SegModel.test_step (m : SegModel) (batch : Img × List ℝ) :
    Except String (TestOut × List LogEntry × SegModel) := do
  let (img, mask) := batch
  let seg_out ← m.fwdT img
  let dice_coeff_values := m.dice_coeff seg_out mask
  let col ← colNeg2 dice_coeff_values
  let curr_mean_dice := mean col
  Except.ok ({ curr_mean_dice := curr_mean_dice },
    [LogEntry.mk "FINAL Dice Score on Target Test Data" curr_mean_dice true true true], m)

/-! ### Concrete modules used as witnesses -/

/-- A minimal module whose backbone always returns the single-logit tensor
`[0]` and whose metric always returns one example with two class channels. -/
noncomputable def mUnit : SegModel :=
  { model_name := "m"
    num_classes := 1
    lr := 0
    num_layers := 3
    features_start := 64
    bilinear := false
    net := fun _ => NetOutput.tensor [0]
    dice_coeff := fun _ _ => [[0, 0]] }

/-- A module in the DeepLabV3 configuration: the backbone returns a mapping
holding the logits under the key `"out"`. -/
noncomputable def mDeep : SegModel :=
  { mUnit with
    model_name := "deeplabv3"
    net := fun _ => NetOutput.dict [("out", [0])] }

/-- A module whose backbone output depends on the input dtype and whose
metric propagates the first logit into both class channels: it separates a
float-cast image from an uncast one. -/
noncomputable def mDtype : SegModel :=
  { mUnit with
    net := fun i => NetOutput.tensor (if i.dtype = DType.float32 then [0] else [1])
    dice_coeff := fun pred _ => [[pred.headD 0, pred.headD 0]] }

/-- An integer-typed one-pixel image. -/
noncomputable def imgInt : Img := ⟨DType.int64, [0]⟩

/-- A float-typed one-pixel image. -/
noncomputable def imgF : Img := ⟨DType.float32, [0]⟩

/-! ### Monad reduction helpers -/

/-- Bind on a successful `Except` computation reduces to the continuation. -/
@[simp] theorem ok_bind {ε α β : Type} (a : α) (f : α → Except ε β) :
    (Except.ok a : Except ε α) >>= f = f a := rfl

/-- Bind on a failed `Except` computation keeps the error. -/
@[simp] theorem error_bind {ε α β : Type} (e : ε) (f : α → Except ε β) :
    (Except.error e : Except ε α) >>= f = Except.error e := rfl

/-- Map over a successful `Except` computation. -/
@[simp] theorem ok_map {ε α β : Type} (f : α → β) (a : α) :
    (Except.ok a : Except ε α).map f = Except.ok (f a) := rfl

/-- Map over a failed `Except` computation. -/
@[simp] theorem error_map {ε α β : Type} (f : α → β) (e : ε) :
    (Except.error e : Except ε α).map f = Except.error e := rfl

/-! ### Claims about the construction layer -/

/-- Claim C1 (code_bug evidence): constructing the module with
`model_name = "unet"` does NOT succeed.  The standalone first `if` does select
the UNet backbone (second conjunct), but the separate `if / elif / else` chain
that follows falls into its `else` branch and raises
`AssertionError: No model selected` (first conjunct), so construction aborts
for `"unet"` even though the spec lists it among the supported names. -/
theorem initNet_unet_aborts (nc nl fs : Nat) (b : Bool) :
    initNet "unet" nc nl fs b = Except.error "No model selected" ∧
    unetBranch "unet" nc nl fs b = some (Net.unet nc nl fs b) := by
  constructor <;> rfl

/-- Claim C2 (counterexample): with configured `num_classes = 2` the
DeepLabV3 branch still installs a classifier head with exactly 1 output
channel, because `createDeepLabv3()` takes no arguments and hardcodes
`DeepLabHead(2048, num_classes=1)`; so the output channel count of the head does
not equal the configured class count. -/
theorem createDeepLabv3_head_counterexample :
    initNet "deeplabv3" 2 3 64 false = Except.ok (Net.deeplabv3 createDeepLabv3) ∧
    createDeepLabv3.classifier_out_channels = 1 ∧
    createDeepLabv3.classifier_out_channels ≠ 2 := by
  refine ⟨rfl, rfl, by decide⟩

/-- Claim C2 (amended): for every configured `num_classes`, the `"deeplabv3"`
branch loads the pretrained network, replaces the first backbone convolution
by `Conv2d(3, 64, 7, 2, 3, bias=False)`, and replaces the classifier head by
one with 2048 input channels and exactly 1 output channel — the head size is
independent of `num_classes`, and equals it only when `num_classes = 1`. -/
theorem createDeepLabv3_head_always_one (nc nl fs : Nat) (b : Bool) :
    initNet "deeplabv3" nc nl fs b = Except.ok (Net.deeplabv3 createDeepLabv3) ∧
    createDeepLabv3.pretrained = true ∧
    createDeepLabv3.conv1 = ⟨3, 64, 7, 2, 3, false⟩ ∧
    createDeepLabv3.classifier_in_channels = 2048 ∧
    createDeepLabv3.classifier_out_channels = 1 := by
  refine ⟨rfl, rfl, rfl, rfl, rfl⟩

/-- Claim C9: the `"unet_resnet_backbone"` and `"deeplabv3"` constructions
are independent of `num_layers`, `features_start` and `bilinear` — two
constructions differing only in those parameters yield the same backbone
(the residual-encoder variant receives only `num_classes`, the DeepLabV3
variant receives nothing) — while the `"unet"` branch is the one that passes
all three to its network constructor. -/
theorem initNet_ignores_unet_knobs (nc nl1 fs1 nl2 fs2 : Nat) (b1 b2 : Bool) :
    initNet "unet_resnet_backbone" nc nl1 fs1 b1
      = initNet "unet_resnet_backbone" nc nl2 fs2 b2 ∧
    initNet "deeplabv3" nc nl1 fs1 b1 = initNet "deeplabv3" nc nl2 fs2 b2 ∧
    initNet "unet_resnet_backbone" nc nl1 fs1 b1
      = Except.ok (Net.unet_resnet18 nc) ∧
    initNet "deeplabv3" nc nl1 fs1 b1 = Except.ok (Net.deeplabv3 createDeepLabv3) ∧
    unetBranch "unet" nc nl1 fs1 b1 = some (Net.unet nc nl1 fs1 b1) := by
  refine ⟨rfl, rfl, rfl, rfl, rfl⟩

/-! ### Claims about the step functions -/

/-- Claim C3 (counterexample): on a concrete batch the logging payload
returned by the training step has exactly the key "Binary Cross Entropy Loss",
which is not the key "Binary Cross Entropy Loss - Training" the claim
names (the latter is only the name of the `self.log` measurement). -/
theorem training_step_log_key_counterexample :
    (mUnit.training_step (imgF, [0])).map (fun r => r.1.log.map Prod.fst)
      = Except.ok ["Binary Cross Entropy Loss"] ∧
    ("Binary Cross Entropy Loss" : String) ≠ "Binary Cross Entropy Loss - Training" := by
  constructor
  · rfl
  · decide

/-- Claim C3 (amended): for every batch whose mask matches the shape of the
forward output, the training step casts the image to float before the forward
pass, computes the loss as the mean of elementwise binary cross-entropy with
logits against the mask, emits the measurement
"Binary Cross Entropy Loss - Training" equal to that loss, and returns that
loss together with a logging payload containing exactly the key
"Binary Cross Entropy Loss" (not "... - Training") equal to that loss. -/
theorem training_step_spec (m : SegModel) (img : Img) (mask t : List ℝ)
    (hf : m.fwdT img.float = Except.ok t)
    (hl : t.length = mask.length) :
    m.training_step (img, mask) =
      Except.ok
        ({ loss := mean (List.zipWith bceWithLogitsPointwise t mask)
           log := [("Binary Cross Entropy Loss",
                    mean (List.zipWith bceWithLogitsPointwise t mask))]
           progress_bar := [("Binary Cross Entropy Loss",
                    mean (List.zipWith bceWithLogitsPointwise t mask))] },
         [LogEntry.mk "Binary Cross Entropy Loss - Training"
            (mean (List.zipWith bceWithLogitsPointwise t mask)) false false false],
         m) := by
  simp [SegModel.training_step, hf, binary_cross_entropy_with_logits, hl, Except.bind]

/-- Witness for `training_step_spec` at a concrete module and batch. -/
theorem training_step_spec_witness :
    mUnit.fwdT (Img.float imgF) = Except.ok [0] ∧
    ([(0 : ℝ)].length = [(0 : ℝ)].length) ∧
    mUnit.training_step (imgF, [0]) =
      Except.ok
        ({ loss := mean (List.zipWith bceWithLogitsPointwise [0] [0])
           log := [("Binary Cross Entropy Loss",
                    mean (List.zipWith bceWithLogitsPointwise [0] [0]))]
           progress_bar := [("Binary Cross Entropy Loss",
                    mean (List.zipWith bceWithLogitsPointwise [0] [0]))] },
         [LogEntry.mk "Binary Cross Entropy Loss - Training"
            (mean (List.zipWith bceWithLogitsPointwise [0] [0])) false false false],
         mUnit) :=
  ⟨rfl, rfl, training_step_spec mUnit imgF [0] [0] rfl rfl⟩

/-- Claim C6: for every input, the forward pass extracts the backbone
output under the fixed key "out" when the configured model name is
"deeplabv3", and returns the backbone output directly for every other
model name. -/
theorem forward_spec (m : SegModel) (x : Img) :
    (m.model_name = "deeplabv3" →
      ∀ entries t, m.net x = NetOutput.dict entries →
        entries.lookup "out" = some t →
        m.forward x = Except.ok (NetOutput.tensor t)) ∧
    (m.model_name ≠ "deeplabv3" → m.forward x = Except.ok (m.net x)) := by
  constructor
  · intro hname entries t hnet hout
    simp [SegModel.forward, hname, hnet, hout]
  · intro hname
    simp [SegModel.forward, hname]

/-- Witness for `forward_spec`: the DeepLabV3-configured module extracts the
"out" entry; the plain module returns the backbone tensor unchanged. -/
theorem forward_spec_witness :
    mDeep.model_name = "deeplabv3" ∧
    mDeep.net imgF = NetOutput.dict [("out", [0])] ∧
    ([("out", [(0 : ℝ)])].lookup "out" = some [0]) ∧
    mDeep.forward imgF = Except.ok (NetOutput.tensor [0]) ∧
    mUnit.model_name ≠ "deeplabv3" ∧
    mUnit.forward imgF = Except.ok (mUnit.net imgF) :=
  ⟨rfl, rfl, rfl,
   (forward_spec mDeep imgF).1 rfl [("out", [0])] [0] rfl rfl,
   by decide,
   (forward_spec mUnit imgF).2 (by decide)⟩

/-- Claim C4: given a batch mapping with entries "loader_val_source" and
"loader_target_test", each an (image, mask) pair on which the forward pass
and the metric evaluate cleanly, the validation step emits exactly the three
measurements "Validation Loss - Source Data" (the BCE-with-logits loss on
the source batch), "Dice Score - Source Data" and
"Dice Score on Target Test Data" (each dice value the batch average of the
second-to-last metric channel on the respective batch), and returns a
structure containing the source validation loss. -/
theorem validation_step_spec (m : SegModel)
    (batch : List (String × (Img × List ℝ)))
    (img1 img2 : Img) (mask1 mask2 t1 t2 c1 c2 : List ℝ)
    (hs : batch.lookup "loader_val_source" = some (img1, mask1))
    (ht : batch.lookup "loader_target_test" = some (img2, mask2))
    (hf1 : m.fwdT img1 = Except.ok t1)
    (hl1 : t1.length = mask1.length)
    (hc1 : colNeg2 (m.dice_coeff t1 mask1) = Except.ok c1)
    (hf2 : m.fwdT img2 = Except.ok t2)
    (hc2 : colNeg2 (m.dice_coeff t2 mask2) = Except.ok c2) :
    m.validation_step batch =
      Except.ok
        ({ val_loss := mean (List.zipWith bceWithLogitsPointwise t1 mask1) },
         [LogEntry.mk "Validation Loss - Source Data"
            (mean (List.zipWith bceWithLogitsPointwise t1 mask1)) true true false,
          LogEntry.mk "Dice Score - Source Data" (mean c1) true true false,
          LogEntry.mk "Dice Score on Target Test Data" (mean c2) true true true],
         m) := by
  simp [SegModel.validation_step, hs, ht, hf1, hc1, hf2, hc2,
        binary_cross_entropy_with_logits, hl1]

/-- Witness for `validation_step_spec` at a concrete module and batch. -/
theorem validation_step_spec_witness :
    ([("loader_val_source", (imgF, [(0 : ℝ)])),
      ("loader_target_test", (imgInt, [(0 : ℝ)]))].lookup "loader_val_source"
        = some (imgF, [(0 : ℝ)])) ∧
    ([("loader_val_source", (imgF, [(0 : ℝ)])),
      ("loader_target_test", (imgInt, [(0 : ℝ)]))].lookup "loader_target_test"
        = some (imgInt, [(0 : ℝ)])) ∧
    mUnit.fwdT imgF = Except.ok [0] ∧
    ([(0 : ℝ)].length = [(0 : ℝ)].length) ∧
    colNeg2 (mUnit.dice_coeff [0] [0]) = Except.ok [0] ∧
    mUnit.fwdT imgInt = Except.ok [0] ∧
    mUnit.validation_step
        [("loader_val_source", (imgF, [0])), ("loader_target_test", (imgInt, [0]))] =
      Except.ok
        ({ val_loss := mean (List.zipWith bceWithLogitsPointwise [0] [0]) },
         [LogEntry.mk "Validation Loss - Source Data"
            (mean (List.zipWith bceWithLogitsPointwise [0] [0])) true true false,
          LogEntry.mk "Dice Score - Source Data" (mean [0]) true true false,
          LogEntry.mk "Dice Score on Target Test Data" (mean [0]) true true true],
         mUnit) :=
  ⟨rfl, rfl, rfl, rfl, rfl, rfl,
   validation_step_spec mUnit _ imgF imgInt [0] [0] [0] [0] [0] [0]
     rfl rfl rfl rfl rfl rfl rfl⟩

/-- Claim C5: for every batch on which the forward pass and metric evaluate
cleanly, the test step returns (in its result structure) a scalar equal to
the batch average of the second-to-last class channel of the overlap metric
applied to the forward output and the mask, and emits that same value as the
measurement "FINAL Dice Score on Target Test Data". -/
theorem test_step_spec (m : SegModel) (img : Img) (mask t c : List ℝ)
    (hf : m.fwdT img = Except.ok t)
    (hc : colNeg2 (m.dice_coeff t mask) = Except.ok c) :
    m.test_step (img, mask) =
      Except.ok
        ({ curr_mean_dice := mean c },
         [LogEntry.mk "FINAL Dice Score on Target Test Data" (mean c) true true true],
         m) := by
  simp [SegModel.test_step, hf, hc]

/-- Witness for `test_step_spec` at a concrete module and batch. -/
theorem test_step_spec_witness :
    mUnit.fwdT imgInt = Except.ok [0] ∧
    colNeg2 (mUnit.dice_coeff [0] [0]) = Except.ok [0] ∧
    mUnit.test_step (imgInt, [0]) =
      Except.ok
        ({ curr_mean_dice := mean [0] },
         [LogEntry.mk "FINAL Dice Score on Target Test Data" (mean [0]) true true true],
         mUnit) :=
  ⟨rfl, rfl, test_step_spec mUnit imgInt [0] [0] [0] rfl rfl⟩

/-- When every row of a score matrix has at least two channels, the column
slice at index -2 succeeds. -/
theorem colNeg2_isOk (t : List (List ℝ)) (h : ∀ row ∈ t, 2 ≤ row.length) :
    ∃ c, colNeg2 t = Except.ok c := by
  induction t with
  | nil => exact ⟨[], rfl⟩
  | cons r rs ih =>
    obtain ⟨c, hc⟩ := ih fun row hrow => h row (List.mem_cons_of_mem r hrow)
    have hr : 2 ≤ r.length := h r (List.mem_cons_self r rs)
    refine ⟨r.get ⟨r.length - 2, by omega⟩ :: c, ?_⟩
    unfold colNeg2 at hc ⊢
    rw [List.mapM_cons, hc]
    simp [indexNeg2, hr]

/-- The forward-as-tensor computation never raises an index error: its
failure messages are key and type errors only. -/
theorem fwdT_ne_indexError (m : SegModel) (x : Img) :
    m.fwdT x ≠ Except.error "IndexError" := by
  unfold SegModel.fwdT SegModel.forward
  by_cases hname : m.model_name = "deeplabv3"
  · simp only [hname, if_pos]
    cases hnet : m.net x with
    | tensor t => simp [Except.bind]
    | dict entries =>
      cases hout : entries.lookup "out" with
      | some t => simp [hout, Except.bind, NetOutput.asTensor]
      | none => simp [hout, Except.bind]
  · simp only [hname, ite_false]
    cases m.net x <;> simp [Except.bind, NetOutput.asTensor]

/-- Claim C7: for a module with configured class count 1 (or any other), as
long as the supplied metric function returns at least 2 channels per example,
the second-to-last-channel selections in the validation and test steps never
raise an index error.  (Any failure these steps can still produce is a key,
type or value error from the other operations.) -/
theorem neg2_index_safe (m : SegModel)
    (hm : ∀ pred mask row, row ∈ m.dice_coeff pred mask → 2 ≤ row.length)
    (hnc : m.num_classes = 1)
    (vb : List (String × (Img × List ℝ))) (tb : Img × List ℝ) :
    m.validation_step vb ≠ Except.error "IndexError" ∧
    m.test_step tb ≠ Except.error "IndexError" := by
  constructor
  · unfold SegModel.validation_step
    cases hs : vb.lookup "loader_val_source" with
    | none => simp [hs]
    | some bs =>
      cases ht : vb.lookup "loader_target_test" with
      | none => simp [hs, ht]
      | some bt =>
        obtain ⟨img1, mask1⟩ := bs
        obtain ⟨img2, mask2⟩ := bt
        cases hf1 : m.fwdT img1 with
        | error e =>
          simp only [hs, ht, hf1, ok_bind, error_bind]
          intro h
          rw [Except.error.injEq] at h
          exact fwdT_ne_indexError m img1 (h ▸ hf1)
        | ok t1 =>
          by_cases hl : t1.length = mask1.length
          · obtain ⟨c1, hc1⟩ := colNeg2_isOk (m.dice_coeff t1 mask1) (hm t1 mask1)
            cases hf2 : m.fwdT img2 with
            | error e =>
              simp only [hs, ht, hf1, hf2, ok_bind, error_bind,
                binary_cross_entropy_with_logits, hl, if_true, hc1]
              intro h
              rw [Except.error.injEq] at h
              exact fwdT_ne_indexError m img2 (h ▸ hf2)
            | ok t2 =>
              obtain ⟨c2, hc2⟩ := colNeg2_isOk (m.dice_coeff t2 mask2) (hm t2 mask2)
              simp [hs, ht, hf1, binary_cross_entropy_with_logits, hl, hc1, hf2, hc2]
          · simp [hs, ht, hf1, binary_cross_entropy_with_logits, hl]
  · obtain ⟨img, mask⟩ := tb
    unfold SegModel.test_step
    cases hf : m.fwdT img with
    | error e =>
      simp only [hf, error_bind]
      intro h
      rw [Except.error.injEq] at h
      exact fwdT_ne_indexError m img (h ▸ hf)
    | ok t =>
      obtain ⟨c, hc⟩ := colNeg2_isOk (m.dice_coeff t mask) (hm t mask)
      simp [hf, hc]

/-- Witness for `neg2_index_safe` at a concrete module and batches. -/
theorem neg2_index_safe_witness :
    (∀ pred mask row, row ∈ mUnit.dice_coeff pred mask → 2 ≤ row.length) ∧
    mUnit.num_classes = 1 ∧
    (mUnit.validation_step
        [("loader_val_source", (imgF, [0])), ("loader_target_test", (imgInt, [0]))]
        ≠ Except.error "IndexError" ∧
     mUnit.test_step (imgInt, [0]) ≠ Except.error "IndexError") := by
  have hm : ∀ pred mask row, row ∈ mUnit.dice_coeff pred mask → 2 ≤ row.length := by
    intro pred mask row h
    simp only [mUnit, List.mem_singleton] at h
    subst h
    decide
  exact ⟨hm, rfl, neg2_index_safe mUnit hm rfl _ _⟩

/-- The training step threads the module state through unchanged: any
successful call returns the module it was called on. -/
theorem training_step_state (m : SegModel) (b : Img × List ℝ) (r)
    (h : m.training_step b = Except.ok r) : r.2.2 = m := by
  obtain ⟨img, mask⟩ := b
  simp only [SegModel.training_step] at h
  cases hf : m.fwdT img.float with
  | error e => rw [hf] at h; exact absurd h (by simp)
  | ok t =>
    rw [hf] at h
    simp only [ok_bind] at h
    cases hb : binary_cross_entropy_with_logits t mask with
    | error e => rw [hb] at h; exact absurd h (by simp)
    | ok L =>
      rw [hb] at h
      simp only [ok_bind, Except.ok.injEq] at h
      rw [← h]

/-- The validation step threads the module state through unchanged. -/
theorem validation_step_state (m : SegModel) (b : List (String × (Img × List ℝ))) (r)
    (h : m.validation_step b = Except.ok r) : r.2.2 = m := by
  simp only [SegModel.validation_step] at h
  cases hs : b.lookup "loader_val_source" with
  | none => rw [hs] at h; exact absurd h (by simp)
  | some bs =>
    cases ht : b.lookup "loader_target_test" with
    | none => rw [hs, ht] at h; exact absurd h (by simp)
    | some bt =>
      obtain ⟨img1, mask1⟩ := bs
      obtain ⟨img2, mask2⟩ := bt
      rw [hs, ht] at h
      simp only [ok_bind] at h
      cases hf1 : m.fwdT img1 with
      | error e => rw [hf1] at h; exact absurd h (by simp)
      | ok t1 =>
        rw [hf1] at h
        simp only [ok_bind] at h
        cases hb : binary_cross_entropy_with_logits t1 mask1 with
        | error e => rw [hb] at h; exact absurd h (by simp)
        | ok L =>
          rw [hb] at h
          simp only [ok_bind] at h
          cases hc1 : colNeg2 (m.dice_coeff t1 mask1) with
          | error e => rw [hc1] at h; exact absurd h (by simp)
          | ok c1 =>
            rw [hc1] at h
            simp only [ok_bind] at h
            cases hf2 : m.fwdT img2 with
            | error e => rw [hf2] at h; exact absurd h (by simp)
            | ok t2 =>
              rw [hf2] at h
              simp only [ok_bind] at h
              cases hc2 : colNeg2 (m.dice_coeff t2 mask2) with
              | error e => rw [hc2] at h; exact absurd h (by simp)
              | ok c2 =>
                rw [hc2] at h
                simp only [ok_bind, Except.ok.injEq] at h
                rw [← h]

/-- The test step threads the module state through unchanged. -/
theorem test_step_state (m : SegModel) (b : Img × List ℝ) (r)
    (h : m.test_step b = Except.ok r) : r.2.2 = m := by
  obtain ⟨img, mask⟩ := b
  simp only [SegModel.test_step] at h
  cases hf : m.fwdT img with
  | error e => rw [hf] at h; exact absurd h (by simp)
  | ok t =>
    rw [hf] at h
    simp only [ok_bind] at h
    cases hc : colNeg2 (m.dice_coeff t mask) with
    | error e => rw [hc] at h; exact absurd h (by simp)
    | ok c =>
      rw [hc] at h
      simp only [ok_bind, Except.ok.injEq] at h
      rw [← h]

/-- Claim C8: none of the three step functions mutates module state — a
successful call returns the module unchanged — and therefore running the
same step again, on the module state a first call returned, produces the
identical output. -/
theorem steps_stateless (m : SegModel) (tb sb : Img × List ℝ)
    (vb : List (String × (Img × List ℝ))) :
    ((m.training_step tb).map fun r => r.2.2) = (m.training_step tb).map (fun _ => m) ∧
    ((m.validation_step vb).map fun r => r.2.2) = (m.validation_step vb).map (fun _ => m) ∧
    ((m.test_step sb).map fun r => r.2.2) = (m.test_step sb).map (fun _ => m) ∧
    ((m.training_step tb).map fun r => r.2.2.training_step tb)
      = (m.training_step tb).map (fun _ => m.training_step tb) ∧
    ((m.validation_step vb).map fun r => r.2.2.validation_step vb)
      = (m.validation_step vb).map (fun _ => m.validation_step vb) ∧
    ((m.test_step sb).map fun r => r.2.2.test_step sb)
      = (m.test_step sb).map (fun _ => m.test_step sb) := by
  refine ⟨?_, ?_, ?_, ?_, ?_, ?_⟩
  · cases h : m.training_step tb with
    | error e => simp
    | ok r => simp [training_step_state m tb r h]
  · cases h : m.validation_step vb with
    | error e => simp
    | ok r => simp [validation_step_state m vb r h]
  · cases h : m.test_step sb with
    | error e => simp
    | ok r => simp [test_step_state m sb r h]
  · cases h : m.training_step tb with
    | error e => simp
    | ok r => simp [training_step_state m tb r h]; exact h
  · cases h : m.validation_step vb with
    | error e => simp
    | ok r => simp [validation_step_state m vb r h]; exact h
  · cases h : m.test_step sb with
    | error e => simp
    | ok r => simp [test_step_state m sb r h]; exact h

/-- Claim C10: the training step casts the batch image to float before the
forward pass — so pre-casting the image never changes its result — while the
validation and test steps pass their batch images to the forward pass
unmodified: a dtype-sensitive backbone observes the difference for the test
image (second part), for the source image of the validation mapping (third
part), and for the target image of the validation mapping (fourth part),
each uncast vs pre-cast. -/
theorem float_cast_only_in_training :
    (∀ (m : SegModel) (img : Img) (mask : List ℝ),
        m.training_step (img, mask) = m.training_step (img.float, mask)) ∧
    (∃ (m : SegModel) (img : Img) (mask : List ℝ),
        m.test_step (img, mask) ≠ m.test_step (img.float, mask)) ∧
    (∃ (m : SegModel) (img : Img) (mask : List ℝ) (tgt : Img × List ℝ),
        m.validation_step
            [("loader_val_source", (img, mask)), ("loader_target_test", tgt)] ≠
          m.validation_step
            [("loader_val_source", (img.float, mask)), ("loader_target_test", tgt)]) ∧
    (∃ (m : SegModel) (src : Img × List ℝ) (img : Img) (mask : List ℝ),
        m.validation_step
            [("loader_val_source", src), ("loader_target_test", (img, mask))] ≠
          m.validation_step
            [("loader_val_source", src), ("loader_target_test", (img.float, mask))]) := by
  refine ⟨fun m img mask => rfl,
    ⟨mDtype, imgInt, [0], ?_⟩, ⟨mDtype, imgInt, [0], (imgF, [0]), ?_⟩,
    ⟨mDtype, (imgF, [0]), imgInt, [0], ?_⟩⟩
  · intro hEq
    have h1 : mDtype.test_step (imgInt, [0]) =
        Except.ok
          ({ curr_mean_dice := mean [1] },
           [LogEntry.mk "FINAL Dice Score on Target Test Data" (mean [1]) true true true],
           mDtype) := rfl
    have h2 : mDtype.test_step (Img.float imgInt, [0]) =
        Except.ok
          ({ curr_mean_dice := mean [0] },
           [LogEntry.mk "FINAL Dice Score on Target Test Data" (mean [0]) true true true],
           mDtype) := rfl
    rw [h1, h2] at hEq
    simp at hEq
    norm_num [mean] at hEq
  · intro hEq
    have h1 : mDtype.validation_step
        [("loader_val_source", (imgInt, [0])), ("loader_target_test", (imgF, [0]))] =
        Except.ok
          ({ val_loss := mean (List.zipWith bceWithLogitsPointwise [1] [0]) },
           [LogEntry.mk "Validation Loss - Source Data"
              (mean (List.zipWith bceWithLogitsPointwise [1] [0])) true true false,
            LogEntry.mk "Dice Score - Source Data" (mean [1]) true true false,
            LogEntry.mk "Dice Score on Target Test Data" (mean [0]) true true true],
           mDtype) := rfl
    have h2 : mDtype.validation_step
        [("loader_val_source", (Img.float imgInt, [0])), ("loader_target_test", (imgF, [0]))] =
        Except.ok
          ({ val_loss := mean (List.zipWith bceWithLogitsPointwise [0] [0]) },
           [LogEntry.mk "Validation Loss - Source Data"
              (mean (List.zipWith bceWithLogitsPointwise [0] [0])) true true false,
            LogEntry.mk "Dice Score - Source Data" (mean [0]) true true false,
            LogEntry.mk "Dice Score on Target Test Data" (mean [0]) true true true],
           mDtype) := rfl
    rw [h1, h2] at hEq
    simp at hEq
    norm_num [mean] at hEq
  · intro hEq
    have h1 : mDtype.validation_step
        [("loader_val_source", (imgF, [0])), ("loader_target_test", (imgInt, [0]))] =
        Except.ok
          ({ val_loss := mean (List.zipWith bceWithLogitsPointwise [0] [0]) },
           [LogEntry.mk "Validation Loss - Source Data"
              (mean (List.zipWith bceWithLogitsPointwise [0] [0])) true true false,
            LogEntry.mk "Dice Score - Source Data" (mean [0]) true true false,
            LogEntry.mk "Dice Score on Target Test Data" (mean [1]) true true true],
           mDtype) := rfl
    have h2 : mDtype.validation_step
        [("loader_val_source", (imgF, [0])), ("loader_target_test", (Img.float imgInt, [0]))] =
        Except.ok
          ({ val_loss := mean (List.zipWith bceWithLogitsPointwise [0] [0]) },
           [LogEntry.mk "Validation Loss - Source Data"
              (mean (List.zipWith bceWithLogitsPointwise [0] [0])) true true false,
            LogEntry.mk "Dice Score - Source Data" (mean [0]) true true false,
            LogEntry.mk "Dice Score on Target Test Data" (mean [0]) true true true],
           mDtype) := rfl
    rw [h1, h2] at hEq
    simp at hEq
    norm_num [mean] at hEq

end DomainAdaptation
